import Mathlib

set_option maxRecDepth 40000

/-!
Shallow embedding of the CN IT-support voice agent (src/agent.py), its
database helpers and the schema constraints declared in src/temp.py and
src/frontend.py.

The agent's function tools are modelled as pure functions over an explicit
session record (ITSupportData, mirroring the dataclass of agent.py) and an
explicit database state (an association list keyed by pin, mirroring the
user accounts table).  SQL UPDATE statements that refresh updated_at via
CURRENT_TIMESTAMP are modelled by threading an explicit clock value.
Python truthiness tests on optional strings (if not x) are modelled by
pyFalsy.  Response strings are kept verbatim from the source (apostrophes
written with the \x27 escape).
-/

/-! ### Response and value string constants, verbatim from src/agent.py -/

def sLocked : String := "locked"

def sActive : String := "active"

def sHome : String := "home"

def sOffice : String := "office"

def sAccountLocked : String := "account_locked"

def sPasswordReset : String := "password_reset"

def sOther : String := "other"

def sOthers : String := "others"

def sLock : String := "lock"

def sPassword : String := "password"

def sReset : String := "reset"

def sPlus : String := "+"

def sTelScheme : String := "tel:"

def sExtension5555 : String := "extension 5555"

def msgPinNotFound : String :=
  "I\x27m sorry, but I couldn\x27t find any account with that PIN number. Could you please verify and provide the correct PIN?"

def msgFoundAccountPre : String :=
  "I found your account. Could you please confirm if your name is "

def msgFoundAccountMid : String := " and your phone number is "

def msgFoundAccountPost : String := "?"

def msgLocationReprompt : String := "Please specify if you\x27re at home or office."

def msgLocationThanks : String :=
  "Thank you for confirming your location. What technical issue are you experiencing today?"

def msgLockedVerify : String :=
  "I understand your account is locked. To help you unlock it, I\x27ll need to verify some security information. Could you please provide your postal code?"

def msgActuallyActive : String :=
  "I see that your account is actually active. Is there something else I can help you with?"

def msgPasswordResetVerify : String :=
  "I\x27ll help you reset your password. First, I need to verify your identity. Could you please provide your postal code?"

def msgOtherTransfer : String :=
  "I understand you\x27re experiencing a different issue. Let me transfer you to one of our technical specialists who can help you better."

def msgPinFirst : String := "Please provide your PIN number first."

def msgSecuritySuccess : String :=
  "Security verification successful. All information matches our records."

def msgSecurityFail : String :=
  "I\x27m sorry, but the security information provided doesn\x27t match our records. Please try again."

def msgNotLocked : String :=
  "Your account is not locked. Is there something else I can help you with?"

def msgUnlocked : String :=
  "Your account has been successfully unlocked. You can now log in with your regular password."

def msgNeedPassword : String := "Please provide a new password."

def msgPasswordResetDone : String :=
  "Your password has been successfully reset. You can now log in with your new password."

def msgTransferNoPhone : String :=
  "I\x27m unable to transfer your call right now. Please call our specialist line directly at extension 5555 for advanced technical support."

def msgTransferEscalate : String :=
  "I\x27ll need to escalate this to a specialist. Please call our specialist line directly at extension 5555."

def msgTransferring : String :=
  "I\x27m transferring you to one of our technical specialists who can help you further. Please hold while I connect you."

/-! ### Python-ism helpers -/

/-- Python truthiness of an optional string: `if not x` is taken when the
value is None or the empty string. -/
def pyFalsy : Option String → Bool
  | none => true
  | some s => s == ""

/-- Python f-string rendering of an optional string (None prints as
"None"). -/
def pyStr : Option String → String
  | none => "None"
  | some s => s

/-- ASCII lowercase of one character (Python str.lower on the ASCII inputs
this agent handles). -/
def lowerChar (c : Char) : Char :=
  if 65 ≤ c.toNat ∧ c.toNat ≤ 90 then Char.ofNat (c.toNat + 32) else c

/-- Python str.lower. -/
def pyLower (s : String) : String := String.mk (s.data.map lowerChar)

/-- Python prefix test `s.startswith(pre)`. -/
def strStartsWith (s pre : String) : Bool := pre.data.isPrefixOf s.data

/-- Python substring test `needle in hay`. -/
def strContains (hay needle : String) : Bool :=
  (List.range (hay.data.length + 1)).any (fun i => needle.data.isPrefixOf (hay.data.drop i))

/-! ### Data model -/

/-- One row of the user accounts table (columns of the schema in
src/temp.py that the agent reads or writes; created_at is never consulted
by the agent and is omitted).  updated_at is a logical timestamp refreshed
by the SQL UPDATEs of agent.py. -/
structure Account where
  name : Option String
  phone_number : Option String
  account_status : Option String
  password : Option String
  postal_code : Option String
  date_of_birth : Option String
  sin_last_three : Option String
  location : Option String
  issue_type : Option String
  updated_at : Nat
deriving DecidableEq

/-- The accounts table: rows keyed by pin. -/
abbrev DB := List (String × Account)

/-- The ITSupportData dataclass of agent.py: per-call session fields cached
from the database row at PIN verification time (all default to None; the
JobContext field is modelled separately for the transfer tool). -/
structure ITSupportData where
  pin : Option String := none
  name : Option String := none
  phone_number : Option String := none
  account_status : Option String := none
  password : Option String := none
  postal_code : Option String := none
  date_of_birth : Option String := none
  sin_last_three : Option String := none
  location : Option String := none
  issue_type : Option String := none
deriving DecidableEq

/-- The freshly constructed session data at call start (ITSupportData()). -/
def initData : ITSupportData := {}

/-! ### Database helper functions of agent.py -/

/-- SELECT * FROM user_accounts WHERE pin = $1 (verify_user_pin). -/
def verify_user_pin (db : DB) (pin : String) : Option Account :=
  (db.find? (fun r => r.1 == pin)).map (fun r => r.2)

/-- SQL row match for an UPDATE whose pin parameter may be NULL (a NULL
parameter matches no row, as in `WHERE pin = $2` with asyncpg passing
None). -/
def rowMatches (pin : Option String) (key : String) : Bool :=
  match pin with
  | none => false
  | some p => key == p

/-- UPDATE user_accounts SET account_status = $1, updated_at =
CURRENT_TIMESTAMP WHERE pin = $2 (update_account_status). -/
def update_account_status (db : DB) (pin : Option String) (status : String) (now : Nat) : DB :=
  db.map (fun r =>
    if rowMatches pin r.1 then
      (r.1, { r.2 with account_status := some status, updated_at := now })
    else r)

/-- UPDATE user_accounts SET password = $1, updated_at = CURRENT_TIMESTAMP
WHERE pin = $2 (update_password). -/
def update_password (db : DB) (pin : Option String) (new_password : String) (now : Nat) : DB :=
  db.map (fun r =>
    if rowMatches pin r.1 then
      (r.1, { r.2 with password := some new_password, updated_at := now })
    else r)

/-! ### Function tools of ITSupportAgent -/

/-- verify_pin_and_get_details: looks the pin up; on a miss returns the
retry prompt and leaves the session unchanged; on a hit caches the row
fields on the session and asks for identity confirmation. -/
def verify_pin_and_get_details (ud : ITSupportData) (db : DB) (pin_number : String) :
    String × ITSupportData :=
  match verify_user_pin db pin_number with
  | none => (msgPinNotFound, ud)
  | some u =>
    (msgFoundAccountPre ++ pyStr u.name ++ msgFoundAccountMid ++ pyStr u.phone_number
        ++ msgFoundAccountPost,
      { ud with
        pin := some pin_number
        name := u.name
        phone_number := u.phone_number
        account_status := u.account_status
        password := u.password
        postal_code := u.postal_code
        date_of_birth := u.date_of_birth
        sin_last_three := u.sin_last_three })

/-- set_location: accepts only home/office case-insensitively; otherwise
re-prompts without change.  No database access occurs in either branch. -/
def set_location (ud : ITSupportData) (location : String) : String × ITSupportData :=
  if ((([sHome, sOffice] : List String).contains (pyLower location)) = false) then
    (msgLocationReprompt, ud)
  else
    (msgLocationThanks, { ud with location := some (pyLower location) })

/-- set_issue_type: classifies the utterance by substring tests on its
lowercasing; the fallback category stored is the string "other". -/
def set_issue_type (ud : ITSupportData) (issue : String) : String × ITSupportData :=
  let issueL := pyLower issue
  if (strContains issueL sLock || strContains issueL (sLock ++ "ed")) then
    let ud2 := { ud with issue_type := some sAccountLocked }
    if ud.account_status = some sLocked then
      (msgLockedVerify, ud2)
    else
      (msgActuallyActive, ud2)
  else if (strContains issueL sPassword || strContains issueL sReset) then
    (msgPasswordResetVerify, { ud with issue_type := some sPasswordReset })
  else
    (msgOtherTransfer, { ud with issue_type := some sOther })

/-- verify_security_questions: requires a cached pin (Python truthiness),
then compares all three answers against the cached row fields; returns one
of three fixed strings and mutates nothing. -/
def verify_security_questions (ud : ITSupportData)
    (postal_code date_of_birth sin_last_three : String) : String :=
  if pyFalsy ud.pin then
    msgPinFirst
  else if (ud.postal_code = some postal_code ∧ ud.date_of_birth = some date_of_birth ∧
      ud.sin_last_three = some sin_last_three) then
    msgSecuritySuccess
  else
    msgSecurityFail

/-- unlock_account: guarded only on the session-cached account_status; on
the locked branch performs the status UPDATE (to "active"). -/
def unlock_account (ud : ITSupportData) (db : DB) (now : Nat) : String × DB :=
  if ud.account_status ≠ some sLocked then
    (msgNotLocked, db)
  else
    (msgUnlocked, update_account_status db ud.pin sActive now)

/-- reset_password: rejects an empty new password; otherwise writes the
password and, when the cached status is locked, also sets status active in
the same call. -/
def reset_password (ud : ITSupportData) (db : DB) (new_password : String) (now : Nat) :
    String × DB :=
  if new_password = "" then
    (msgNeedPassword, db)
  else
    let db1 := update_password db ud.pin new_password now
    let db2 :=
      if ud.account_status = some sLocked then update_account_status db1 ud.pin sActive now
      else db1
    (msgPasswordResetDone, db2)

/-! ### Escalation (transfer_to_specialist) -/

/-- A remote participant of the call room (identity may be unset). -/
structure Participant where
  identity : Option String
deriving DecidableEq

/-- The call room reachable through the JobContext; absence models the
`not self.user_data.ctx or not self.user_data.ctx.room` branch. -/
structure Room where
  name : String
  remote_participants : List Participant
deriving DecidableEq

/-- Environment of transfer_to_specialist: the HUMAN_AGENT_PHONE setting,
the room (if any), and whether the telephony backend call completes
(backend_ok = false models transfer_sip_participant raising, which the
surrounding try/except catches). -/
structure TransferEnv where
  human_agent_phone : Option String
  room : Option Room
  backend_ok : Bool
deriving DecidableEq

/-- Participant selection of transfer_to_specialist: first remote
participant with a truthy identity starting with "+" or "tel:", else the
first participant's identity when any participant exists. -/
def pick_participant (ps : List Participant) : Option String :=
  match ps.find? (fun p =>
      match p.identity with
      | none => false
      | some s => (s == "") = false && (strStartsWith s sPlus || strStartsWith s sTelScheme)) with
  | some p => p.identity
  | none =>
    match ps with
    | [] => none
    | p :: _ => p.identity

/-- transfer_to_specialist: best-effort escalation.  Every failure branch
(no configured destination, no room, no identifiable participant, backend
error) returns a fallback string naming extension 5555; the session data is
never written (the Python method only reads self.user_data). -/
def transfer_to_specialist (ud : ITSupportData) (env : TransferEnv) :
    String × ITSupportData :=
  if pyFalsy env.human_agent_phone then
    (msgTransferNoPhone, ud)
  else
    match env.room with
    | none => (msgTransferEscalate, ud)
    | some room =>
      let participant_identity := pick_participant room.remote_participants
      if pyFalsy participant_identity then
        (msgTransferEscalate, ud)
      else if env.backend_ok then
        (msgTransferring, ud)
      else
        (msgTransferNoPhone, ud)

/-! ### Session-level event machine -/

/-- One tool invocation during a call, with its raw slot values. -/
inductive Event where
  | verifyPin (pin_number : String)
  | setLocation (location : String)
  | setIssue (issue : String)
  | verifySecurity (postal_code date_of_birth sin_last_three : String)
  | unlock
  | resetPw (new_password : String)
deriving DecidableEq

/-- A call session snapshot: the cached session data, the shared database,
a logical clock (advanced per event, feeding CURRENT_TIMESTAMP) and the
log of responses spoken so far. -/
structure SessState where
  ud : ITSupportData
  db : DB
  now : Nat
  log : List String
deriving DecidableEq

/-- Dispatch one tool invocation exactly as agent.py does: each tool
mutates only what its body mutates. -/
def step (s : SessState) (e : Event) : SessState :=
  match e with
  | .verifyPin p =>
    let r := verify_pin_and_get_details s.ud s.db p
    { s with ud := r.2, log := s.log ++ [r.1], now := s.now + 1 }
  | .setLocation l =>
    let r := set_location s.ud l
    { s with ud := r.2, log := s.log ++ [r.1], now := s.now + 1 }
  | .setIssue i =>
    let r := set_issue_type s.ud i
    { s with ud := r.2, log := s.log ++ [r.1], now := s.now + 1 }
  | .verifySecurity a b c =>
    let r := verify_security_questions s.ud a b c
    { s with log := s.log ++ [r], now := s.now + 1 }
  | .unlock =>
    let r := unlock_account s.ud s.db s.now
    { s with db := r.2, log := s.log ++ [r.1], now := s.now + 1 }
  | .resetPw p =>
    let r := reset_password s.ud s.db p s.now
    { s with db := r.2, log := s.log ++ [r.1], now := s.now + 1 }

/-- Run a list of tool invocations from a starting snapshot. -/
def runSession (s : SessState) (es : List Event) : SessState :=
  es.foldl step s

/-- Whether an event is a security-answer verification attempt. -/
def isSecurityCheck : Event → Bool
  | .verifySecurity _ _ _ => true
  | _ => false

/-! ### Concrete fixtures (the sample row inserted by src/temp.py) -/

/-- The sample account of temp.py: John Doe, pin 1234, locked. -/
def johnDoe : Account :=
  { name := some "John Doe"
    phone_number := some "+1-555-0123"
    account_status := some sLocked
    password := some "hashed_password_here"
    postal_code := some "12345"
    date_of_birth := some "01/01/1990"
    sin_last_three := some "123"
    location := some sOffice
    issue_type := some sAccountLocked
    updated_at := 0 }

/-- A one-row database holding the sample account under pin 1234. -/
def dbJohn : DB := [("1234", johnDoe)]

/-- Call-start snapshot over the sample database. -/
def sessJohn : SessState := { ud := initData, db := dbJohn, now := 1, log := [] }

/-- The session data right after a successful PIN lookup of the sample
account (what verify_pin_and_get_details caches). -/
def udJohn : ITSupportData :=
  { pin := some "1234"
    name := some "John Doe"
    phone_number := some "+1-555-0123"
    account_status := some sLocked
    password := some "hashed_password_here"
    postal_code := some "12345"
    date_of_birth := some "01/01/1990"
    sin_last_three := some "123"
    location := none
    issue_type := none }

/-! ### Lookup/update lemmas for the association-list table -/

/-- Reading back a row after update_account_status on its pin: only the
status and timestamp change. -/
theorem verify_user_pin_update_account_status (db : DB) (p status : String) (now : Nat) :
    verify_user_pin (update_account_status db (some p) status now) p =
      (verify_user_pin db p).map
        (fun a => { a with account_status := some status, updated_at := now }) := by
  induction db with
  | nil => rfl
  | cons r rest ih =>
    by_cases h : r.1 = p
    · simp [verify_user_pin, update_account_status, rowMatches, List.find?_cons, h] at ih ⊢
    · simp [verify_user_pin, update_account_status, rowMatches, List.find?_cons, h] at ih ⊢
      exact ih

/-- Reading back a row after update_password on its pin: only the password
and timestamp change. -/
theorem verify_user_pin_update_password (db : DB) (p npw : String) (now : Nat) :
    verify_user_pin (update_password db (some p) npw now) p =
      (verify_user_pin db p).map
        (fun a => { a with password := some npw, updated_at := now }) := by
  induction db with
  | nil => rfl
  | cons r rest ih =>
    by_cases h : r.1 = p
    · simp [verify_user_pin, update_password, rowMatches, List.find?_cons, h] at ih ⊢
    · simp [verify_user_pin, update_password, rowMatches, List.find?_cons, h] at ih ⊢
      exact ih

/-! ### Claim theorems -/

/-- Claim C3: unlock_account performs the status mutation iff the account
status is locked beforehand (session cache coherent with the stored row);
on success the stored row becomes active (timestamp refreshed), and on the
not-locked branch the database is untouched and the precondition-failure
response is returned. -/
theorem unlock_account_succeeds_iff_locked (ud : ITSupportData) (db : DB) (p : String)
    (acc : Account) (now : Nat)
    (hpin : ud.pin = some p)
    (hfind : verify_user_pin db p = some acc)
    (hcoh : ud.account_status = acc.account_status) :
    (acc.account_status = some sLocked →
      unlock_account ud db now =
        (msgUnlocked, update_account_status db (some p) sActive now) ∧
      verify_user_pin (unlock_account ud db now).2 p =
        some { acc with account_status := some sActive, updated_at := now }) ∧
    (acc.account_status ≠ some sLocked →
      unlock_account ud db now = (msgNotLocked, db)) := by
  constructor
  · intro h
    have hguard : ¬ (ud.account_status ≠ some sLocked) := by
      rw [hcoh, h]; simp
    constructor
    · simp [unlock_account, hguard, hpin]
    · simp [unlock_account, hguard, hpin, verify_user_pin_update_account_status, hfind]
  · intro h
    have hguard : ud.account_status ≠ some sLocked := by rw [hcoh]; exact h
    simp [unlock_account, hguard]

/-- Claim C3 witness: on the sample locked account the unlock succeeds and
the stored status becomes active; on the same account already active the
call is a no-op failure. -/
theorem unlock_account_succeeds_iff_locked_witness :
    unlock_account { initData with pin := some "1234", account_status := some sLocked }
        dbJohn 7 =
      (msgUnlocked, update_account_status dbJohn (some "1234") sActive 7) ∧
    verify_user_pin
        (unlock_account { initData with pin := some "1234", account_status := some sLocked }
          dbJohn 7).2 "1234" =
      some { johnDoe with account_status := some sActive, updated_at := 7 } := by
  exact (unlock_account_succeeds_iff_locked
    { initData with pin := some "1234", account_status := some sLocked }
    dbJohn "1234" johnDoe 7 (by decide) (by decide) (by decide)).1 (by decide)

/-- Claim C4: with a pin cached, security verification succeeds exactly
when all three answers equal the stored values, and flipping any single
correct answer flips the result to the failure response. -/
theorem verify_security_all_or_nothing (ud : ITSupportData) (p pc dob sin3 : String)
    (hpin : ud.pin = some p) (hp : p ≠ "")
    (hpc : ud.postal_code = some pc) (hdob : ud.date_of_birth = some dob)
    (hsin : ud.sin_last_three = some sin3) :
    (∀ a b c, verify_security_questions ud a b c = msgSecuritySuccess ↔
      (a = pc ∧ b = dob ∧ c = sin3)) ∧
    (∀ a, a ≠ pc → verify_security_questions ud a dob sin3 = msgSecurityFail) ∧
    (∀ b, b ≠ dob → verify_security_questions ud pc b sin3 = msgSecurityFail) ∧
    (∀ c, c ≠ sin3 → verify_security_questions ud pc dob c = msgSecurityFail) := by
  have hfalsy : pyFalsy ud.pin = false := by
    rw [hpin]; simp [pyFalsy, hp]
  have hne : msgSecurityFail ≠ msgSecuritySuccess := by decide
  refine ⟨?_, ?_, ?_, ?_⟩
  · intro a b c
    by_cases hm : pc = a ∧ dob = b ∧ sin3 = c
    · obtain ⟨h1, h2, h3⟩ := hm
      subst h1; subst h2; subst h3
      simp [verify_security_questions, hfalsy, hpc, hdob, hsin]
    · constructor
      · intro hcontr
        have : verify_security_questions ud a b c = msgSecurityFail := by
          simp only [verify_security_questions, hfalsy, Bool.false_eq_true, if_false,
            hpc, hdob, hsin, Option.some.injEq]
          rw [if_neg]
          intro hx
          exact hm ⟨hx.1, hx.2.1, hx.2.2⟩
        rw [this] at hcontr
        exact absurd hcontr hne
      · intro hx
        exact absurd ⟨hx.1.symm, hx.2.1.symm, hx.2.2.symm⟩ hm
  · intro a ha
    simp [verify_security_questions, hfalsy, hpc, hdob, hsin, Ne.symm ha]
  · intro b hb
    simp [verify_security_questions, hfalsy, hpc, hdob, hsin, Ne.symm hb]
  · intro c hc
    simp [verify_security_questions, hfalsy, hpc, hdob, hsin, Ne.symm hc]

/-- Claim C4 witness: for the sample account, the stored answers succeed
and each single wrong answer fails. -/
theorem verify_security_all_or_nothing_witness :
    (verify_security_questions udJohn "12345" "01/01/1990" "123" = msgSecuritySuccess) ∧
    (verify_security_questions udJohn "99999" "01/01/1990" "123" = msgSecurityFail) := by
  have h := verify_security_all_or_nothing udJohn "1234" "12345" "01/01/1990" "123"
    (by decide) (by decide) (by decide) (by decide) (by decide)
  exact ⟨(h.1 "12345" "01/01/1990" "123").2 (by decide), h.2.1 "99999" (by decide)⟩

/-- Claim C5: the verification result never identifies which field
mismatched: over a fixed session, any two answer triples whose response is
not the success response receive literally identical responses. -/
theorem verify_security_failure_uniform (ud : ITSupportData)
    (a1 b1 e1 a2 b2 e2 : String)
    (h1 : verify_security_questions ud a1 b1 e1 ≠ msgSecuritySuccess)
    (h2 : verify_security_questions ud a2 b2 e2 ≠ msgSecuritySuccess) :
    verify_security_questions ud a1 b1 e1 = verify_security_questions ud a2 b2 e2 := by
  by_cases hf : pyFalsy ud.pin = true
  · simp [verify_security_questions, hf]
  · have hf2 : pyFalsy ud.pin = false := by
      cases hx : pyFalsy ud.pin
      · rfl
      · exact absurd hx hf
    by_cases hm1 : ud.postal_code = some a1 ∧ ud.date_of_birth = some b1 ∧
        ud.sin_last_three = some e1
    · exact absurd (by simp [verify_security_questions, hf2, hm1]) h1
    · by_cases hm2 : ud.postal_code = some a2 ∧ ud.date_of_birth = some b2 ∧
          ud.sin_last_three = some e2
      · exact absurd (by simp [verify_security_questions, hf2, hm2]) h2
      · simp only [verify_security_questions, hf2, Bool.false_eq_true, if_false]
        rw [if_neg hm1, if_neg hm2]

/-- Claim C5 witness: two differently-mismatching triples on the sample
session get the same response. -/
theorem verify_security_failure_uniform_witness :
    verify_security_questions udJohn "99999" "01/01/1990" "123" =
      verify_security_questions udJohn "12345" "02/02/1992" "999" := by
  exact verify_security_failure_uniform udJohn "99999" "01/01/1990" "123"
    "12345" "02/02/1992" "999" (by decide) (by decide)

/-- Claim C10: invoking security verification with no PIN recorded returns
the PIN-first prompt, independent of the three answers supplied (so no
comparison outcome is observable). -/
theorem verify_security_without_pin_prompts (ud : ITSupportData) (a b c : String)
    (hpin : ud.pin = none) :
    verify_security_questions ud a b c = msgPinFirst ∧
    (∀ a2 b2 c2, verify_security_questions ud a2 b2 c2 =
      verify_security_questions ud a b c) := by
  constructor
  · simp [verify_security_questions, pyFalsy, hpin]
  · intro a2 b2 c2
    simp [verify_security_questions, pyFalsy, hpin]

/-- Claim C10 witness: a fresh session (no PIN) is prompted for the PIN
even with the correct stored answers supplied. -/
theorem verify_security_without_pin_prompts_witness :
    verify_security_questions initData "12345" "01/01/1990" "123" = msgPinFirst := by
  exact (verify_security_without_pin_prompts initData "12345" "01/01/1990" "123"
    (by decide)).1

/-- The sample session after PIN lookup and one successful unlock. -/
def sessAfterUnlock : SessState :=
  runSession sessJohn [Event.verifyPin "1234", Event.unlock]

/-- Claim C2 counterexample: after a first successful unlock of the sample
account, a second unlock_account call does not take the not-locked
(precondition-failure) branch: it returns the success response again and
performs another database write (the row changes, its timestamp is
refreshed), because the session cache of account_status was never
refreshed. -/
theorem unlock_twice_second_call_writes_again :
    (unlock_account sessAfterUnlock.ud sessAfterUnlock.db sessAfterUnlock.now).1 =
      msgUnlocked ∧
    msgUnlocked ≠ msgNotLocked ∧
    (unlock_account sessAfterUnlock.ud sessAfterUnlock.db sessAfterUnlock.now).2 ≠
      sessAfterUnlock.db := by decide

/-- Claim C2 amended: calling unlock_account twice after a first success is
not a PreconditionFailed no-op; the stale session cache passes the guard
again, so the second call repeats the status write (refreshing updated_at)
and returns the success response, while the stored status itself stays
active, unchanged from after the first call. -/
theorem unlock_twice_repeats_write (ud : ITSupportData) (db : DB) (p : String)
    (acc : Account) (n1 n2 : Nat)
    (hpin : ud.pin = some p)
    (hlocked : ud.account_status = some sLocked)
    (hfind : verify_user_pin db p = some acc) :
    (unlock_account ud db n1).1 = msgUnlocked ∧
    (unlock_account ud (unlock_account ud db n1).2 n2).1 = msgUnlocked ∧
    (unlock_account ud (unlock_account ud db n1).2 n2).2 =
      update_account_status (unlock_account ud db n1).2 (some p) sActive n2 ∧
    verify_user_pin (unlock_account ud db n1).2 p =
      some { acc with account_status := some sActive, updated_at := n1 } ∧
    verify_user_pin (unlock_account ud (unlock_account ud db n1).2 n2).2 p =
      some { acc with account_status := some sActive, updated_at := n2 } := by
  have hguard : ¬ (ud.account_status ≠ some sLocked) := by rw [hlocked]; simp
  refine ⟨?_, ?_, ?_, ?_, ?_⟩
  · simp [unlock_account, hguard]
  · simp [unlock_account, hguard]
  · simp [unlock_account, hguard, hpin]
  · simp [unlock_account, hguard, hpin, verify_user_pin_update_account_status, hfind]
  · simp [unlock_account, hguard, hpin, verify_user_pin_update_account_status, hfind]

/-- Claim C2 amended witness: the sample locked account, unlocked at two
successive instants. -/
theorem unlock_twice_repeats_write_witness :
    (unlock_account udJohn dbJohn 2).1 = msgUnlocked ∧
    (unlock_account udJohn (unlock_account udJohn dbJohn 2).2 3).1 = msgUnlocked ∧
    (unlock_account udJohn (unlock_account udJohn dbJohn 2).2 3).2 =
      update_account_status (unlock_account udJohn dbJohn 2).2 (some "1234") sActive 3 ∧
    verify_user_pin (unlock_account udJohn dbJohn 2).2 "1234" =
      some { johnDoe with account_status := some sActive, updated_at := 2 } ∧
    verify_user_pin (unlock_account udJohn (unlock_account udJohn dbJohn 2).2 3).2 "1234" =
      some { johnDoe with account_status := some sActive, updated_at := 3 } := by
  exact unlock_twice_repeats_write udJohn dbJohn "1234" johnDoe 2 3
    (by decide) (by decide) (by decide)

/-- Claim C6: reset_password with an empty new password returns the
InvalidInput prompt, writes nothing to the database and leaves the session
unchanged (the session step only logs the prompt); with a non-empty
password it writes the password and, exactly when the status captured for
the account was locked, also sets the status active, both in the same
call. -/
theorem reset_password_empty_vs_nonempty (ud : ITSupportData) (db : DB)
    (p npw : String) (acc : Account) (now : Nat)
    (hpin : ud.pin = some p)
    (hfind : verify_user_pin db p = some acc)
    (hcoh : ud.account_status = acc.account_status) :
    (reset_password ud db "" now = (msgNeedPassword, db)) ∧
    (∀ s : SessState, step s (Event.resetPw "") =
      { s with log := s.log ++ [msgNeedPassword], now := s.now + 1 }) ∧
    (npw ≠ "" →
      (reset_password ud db npw now).1 = msgPasswordResetDone ∧
      (acc.account_status = some sLocked →
        verify_user_pin (reset_password ud db npw now).2 p =
          some { acc with password := some npw
                          account_status := some sActive
                          updated_at := now }) ∧
      (acc.account_status ≠ some sLocked →
        verify_user_pin (reset_password ud db npw now).2 p =
          some { acc with password := some npw, updated_at := now })) := by
  refine ⟨?_, ?_, ?_⟩
  · simp [reset_password]
  · intro s
    simp [step, reset_password]
  · intro hnpw
    refine ⟨?_, ?_, ?_⟩
    · simp [reset_password, hnpw]
    · intro hl
      have hl2 : ud.account_status = some sLocked := by rw [hcoh]; exact hl
      simp [reset_password, hnpw, hl2, hpin, verify_user_pin_update_account_status,
        verify_user_pin_update_password, hfind]
    · intro hl
      have hl2 : ¬ ud.account_status = some sLocked := by rw [hcoh]; exact hl
      simp [reset_password, hnpw, hl2, hpin, verify_user_pin_update_password, hfind]

/-- Claim C6 witness: on the sample locked account an empty password is
rejected without any write, and a non-empty one sets both the password and
the active status in one call. -/
theorem reset_password_empty_vs_nonempty_witness :
    (reset_password udJohn dbJohn "" 5 = (msgNeedPassword, dbJohn)) ∧
    ((reset_password udJohn dbJohn "hunter2" 5).1 = msgPasswordResetDone) ∧
    (verify_user_pin (reset_password udJohn dbJohn "hunter2" 5).2 "1234" =
      some { johnDoe with password := some "hunter2"
                          account_status := some sActive
                          updated_at := 5 }) := by
  have h := reset_password_empty_vs_nonempty udJohn dbJohn "1234" "hunter2" johnDoe 5
    (by decide) (by decide) (by decide)
  exact ⟨h.1, (h.2.2 (by decide)).1, (h.2.2 (by decide)).2.1 (by decide)⟩

/-- Claim C7: escalation is best-effort: whenever no destination number is
configured, no room is available, no participant identity can be resolved,
or the backend call raises, transfer_to_specialist returns one of the two
fallback responses, each naming the extension 5555 callback, and the
session data is returned unchanged (the function is total: the Python body
is wholly wrapped in try/except). -/
theorem transfer_failure_returns_fallback (ud : ITSupportData) (env : TransferEnv)
    (hfail : pyFalsy env.human_agent_phone = true ∨ env.room = none ∨
      (∀ room, env.room = some room →
        pyFalsy (pick_participant room.remote_participants) = true) ∨
      env.backend_ok = false) :
    ((transfer_to_specialist ud env).1 = msgTransferNoPhone ∨
      (transfer_to_specialist ud env).1 = msgTransferEscalate) ∧
    strContains (transfer_to_specialist ud env).1 sExtension5555 = true ∧
    (transfer_to_specialist ud env).2 = ud := by
  have hA : strContains msgTransferNoPhone sExtension5555 = true := by decide
  have hB : strContains msgTransferEscalate sExtension5555 = true := by decide
  by_cases hphone : pyFalsy env.human_agent_phone = true
  · simp [transfer_to_specialist, hphone, hA]
  · have hphone2 : pyFalsy env.human_agent_phone = false := by
      cases hx : pyFalsy env.human_agent_phone
      · rfl
      · exact absurd hx hphone
    cases hroom : env.room with
    | none => simp [transfer_to_specialist, hphone2, hroom, hB]
    | some room =>
      by_cases hpart : pyFalsy (pick_participant room.remote_participants) = true
      · simp [transfer_to_specialist, hphone2, hroom, hpart, hB]
      · have hpart2 : pyFalsy (pick_participant room.remote_participants) = false := by
          cases hx : pyFalsy (pick_participant room.remote_participants)
          · rfl
          · exact absurd hx hpart
        cases hback : env.backend_ok
        · simp [transfer_to_specialist, hphone2, hroom, hpart2, hback, hA]
        · rcases hfail with h | h | h | h
          · exact absurd h hphone
          · rw [hroom] at h; exact absurd h (by simp)
          · have := h room hroom
            exact absurd this hpart
          · rw [hback] at h; exact absurd h (by simp)

/-- Claim C7 witness: with no HUMAN_AGENT_PHONE configured the call is not
transferred, the caller is given the extension 5555 fallback and the
session data is untouched. -/
theorem transfer_failure_returns_fallback_witness :
    ((transfer_to_specialist udJohn
        { human_agent_phone := none, room := none, backend_ok := true }).1 =
      msgTransferNoPhone ∨
      (transfer_to_specialist udJohn
        { human_agent_phone := none, room := none, backend_ok := true }).1 =
      msgTransferEscalate) ∧
    strContains (transfer_to_specialist udJohn
        { human_agent_phone := none, room := none, backend_ok := true }).1
      sExtension5555 = true ∧
    (transfer_to_specialist udJohn
        { human_agent_phone := none, room := none, backend_ok := true }).2 = udJohn := by
  exact transfer_failure_returns_fallback udJohn
    { human_agent_phone := none, room := none, backend_ok := true }
    (Or.inl (by decide))

/-- Claim C8 evaluation: on an utterance matching none of the lock/password
keywords the agent stores the issue type "other", which is not a member of
the three-value enum {account_locked, password_reset, others} declared by
the schema CHECK constraint in src/temp.py and by VALID_ISSUE_TYPES in
src/frontend.py. -/
theorem set_issue_type_fallback_outside_enum :
    (set_issue_type initData "my screen is broken").2.issue_type = some sOther ∧
    ((([sAccountLocked, sPasswordReset, sOthers] : List String).contains sOther) = false) := by
  decide

/-- Claim C9 counterexample: on the verified sample session (stored
location "office"), giving the in-range location "home" updates only the
session: the response is the advance prompt and the session location
becomes "home", but the database is byte-for-byte unchanged and the stored
row still says "office" — no persistence of the location happens, contrary
to the claim. -/
theorem set_location_is_not_persisted :
    ((step (runSession sessJohn [Event.verifyPin "1234"]) (Event.setLocation "home")).ud.location
      = some sHome) ∧
    ((step (runSession sessJohn [Event.verifyPin "1234"]) (Event.setLocation "home")).log.getLast?
      = some msgLocationThanks) ∧
    ((step (runSession sessJohn [Event.verifyPin "1234"]) (Event.setLocation "home")).db
      = (runSession sessJohn [Event.verifyPin "1234"]).db) ∧
    ((verify_user_pin
        (step (runSession sessJohn [Event.verifyPin "1234"]) (Event.setLocation "home")).db
        "1234").map Account.location ≠ some (some sHome)) := by
  decide

/-- Claim C9 amended: a location in {home, office} (case-insensitively) is
recorded, lowercased, on the session only, and the advance prompt is
returned; any other value re-prompts and leaves the session unchanged; in
both cases the database is untouched (this agent never persists the
location). -/
theorem set_location_session_only (ud : ITSupportData) (location : String) :
    ((([sHome, sOffice] : List String).contains (pyLower location)) = true →
      set_location ud location =
        (msgLocationThanks, { ud with location := some (pyLower location) })) ∧
    ((([sHome, sOffice] : List String).contains (pyLower location)) = false →
      set_location ud location = (msgLocationReprompt, ud)) ∧
    (∀ s : SessState, (step s (Event.setLocation location)).db = s.db) := by
  refine ⟨?_, ?_, ?_⟩
  · intro h
    simp only [set_location, h]
    simp
  · intro h
    simp only [set_location, h]
    simp
  · intro s
    simp [step]

/-- Claim C9 amended witness: "Office" is accepted and recorded lowercased
on the session; "mars" re-prompts and changes nothing. -/
theorem set_location_session_only_witness :
    set_location udJohn "Office" = (msgLocationThanks, { udJohn with location := some sOffice }) ∧
    set_location udJohn "mars" = (msgLocationReprompt, udJohn) := by
  refine ⟨?_, ?_⟩
  · have h := (set_location_session_only udJohn "Office").1 (by decide)
    rw [h]
    decide
  · exact (set_location_session_only udJohn "mars").2.1 (by decide)

/-- Claim C1 evaluation: there is a complete session trace containing no
security-question verification at all in which unlock_account still
performs its database mutation: starting from the sample database with the
account locked, the two tool calls [verify_pin_and_get_details "1234";
unlock_account] leave the stored account_status active.  No verifiedSecurity
gate exists in the code (ITSupportData has no such field and
verify_security_questions records nothing). -/
theorem unlock_reachable_without_security_check :
    (([Event.verifyPin "1234", Event.unlock] : List Event).all
      (fun e => (isSecurityCheck e) = false)) ∧
    ((verify_user_pin dbJohn "1234").map Account.account_status = some (some sLocked)) ∧
    ((verify_user_pin (runSession sessJohn [Event.verifyPin "1234", Event.unlock]).db
        "1234").map Account.account_status = some (some sActive)) := by
  decide
